import Mathlib

/-!
Verification of the Terminus execution engine (agent_core) against its
natural-language specification.  The Python sources under `agent_core/`
are shallowly embedded below: pure helpers become Lean functions, the
environment (env vars, availability of `sudo`, upstream API behaviour,
child-process behaviour) is passed explicitly as records of oracles, and
Python exceptions become `Except`/`Option` values.

String primitives (`strip`, `lower`, slicing, `startswith`, `in`,
`shlex.split`) are implemented structurally over `List Char` so that
every definition evaluates by kernel reduction; they model the Python
semantics on the ASCII data these claims are about.
-/

namespace Terminus

/-! ### Python string primitives -/

/-- A single-quote character (ASCII 39), used to build shell strings. -/
def sq : String := String.mk [Char.ofNat 39]

/-- Python `str.strip()` whitespace (ASCII portion): space, `\t`, `\n`,
`\v`, `\f`, `\r`. -/
def isStripWS (c : Char) : Bool := c.toNat = 32 ∨ (9 ≤ c.toNat ∧ c.toNat ≤ 13)

/-- Strip leading and trailing whitespace from a character list. -/
def trimChars (l : List Char) : List Char :=
  ((l.dropWhile isStripWS).reverse.dropWhile isStripWS).reverse

/-- Python `s.strip()`. -/
def pyStrip (s : String) : String := String.mk (trimChars s.data)

/-- ASCII lower-casing of one character (model of `str.lower` on the
ASCII commands and prefixes these claims compare). -/
def lowerChar (c : Char) : Char :=
  if 65 ≤ c.toNat ∧ c.toNat ≤ 90 then Char.ofNat (c.toNat + 32) else c

/-- Python `s.lower()` (ASCII model). -/
def pyLower (s : String) : String := String.mk (s.data.map lowerChar)

/-- Python `s.startswith(pre)`. -/
def pyStartsWith (s pre : String) : Bool := pre.data.isPrefixOf s.data

/-- Python slice `s[:n]`. -/
def pyTake (s : String) (n : Nat) : String := String.mk (s.data.take n)

/-- Is `needle` a contiguous sub-list of `hay`? -/
def subList (needle : List Char) : List Char → Bool
  | [] => needle.isPrefixOf []
  | c :: t => needle.isPrefixOf (c :: t) || subList needle t

/-- Python `pat in s` substring test. -/
def pyContains (s pat : String) : Bool := subList pat.data s.data

/-! ### `shlex.split` model

`agent_core.sandbox._sanitize_command` tokenises commands with
`shlex.split` (POSIX mode, comments off).  The model below follows the
POSIX rules implemented by the Python standard library: whitespace
separates words; single quotes are fully literal; inside double quotes a
backslash escapes only `"` and `\`; outside quotes a backslash escapes
the next character.  An unterminated quote or a trailing backslash makes
`shlex.split` raise `ValueError`, modelled as `none`.  The fuel
parameter (seeded with the input length, an upper bound on the number of
steps) only makes the recursion structural. -/

inductive ShlexMode where
  | normal
  | inSingle
  | inDouble
deriving DecidableEq, Repr

def shlexGo : Nat → List Char → ShlexMode → Option (List Char) → List String →
    Option (List String)
  | _, [], ShlexMode.normal, cur, acc =>
    match cur with
    | some t => some (acc ++ [String.mk t])
    | none => some acc
  | _, [], _, _, _ => none
  | 0, _ :: _, _, _, _ => none
  | Nat.succ fuel, c :: rest, ShlexMode.normal, cur, acc =>
    if c.toNat = 32 ∨ c.toNat = 9 ∨ c.toNat = 10 ∨ c.toNat = 13 then
      match cur with
      | some t => shlexGo fuel rest ShlexMode.normal none (acc ++ [String.mk t])
      | none => shlexGo fuel rest ShlexMode.normal none acc
    else if c.toNat = 39 then
      shlexGo fuel rest ShlexMode.inSingle (some (cur.getD [])) acc
    else if c.toNat = 34 then
      shlexGo fuel rest ShlexMode.inDouble (some (cur.getD [])) acc
    else if c.toNat = 92 then
      match rest with
      | [] => none
      | d :: rest2 => shlexGo fuel rest2 ShlexMode.normal (some (cur.getD [] ++ [d])) acc
    else
      shlexGo fuel rest ShlexMode.normal (some (cur.getD [] ++ [c])) acc
  | Nat.succ fuel, c :: rest, ShlexMode.inSingle, cur, acc =>
    if c.toNat = 39 then shlexGo fuel rest ShlexMode.normal cur acc
    else shlexGo fuel rest ShlexMode.inSingle (some (cur.getD [] ++ [c])) acc
  | Nat.succ fuel, c :: rest, ShlexMode.inDouble, cur, acc =>
    if c.toNat = 34 then shlexGo fuel rest ShlexMode.normal cur acc
    else if c.toNat = 92 then
      match rest with
      | [] => none
      | d :: rest2 =>
        if d.toNat = 34 ∨ d.toNat = 92 then
          shlexGo fuel rest2 ShlexMode.inDouble (some (cur.getD [] ++ [d])) acc
        else
          shlexGo fuel rest2 ShlexMode.inDouble (some (cur.getD [] ++ [Char.ofNat 92, d])) acc
    else shlexGo fuel rest ShlexMode.inDouble (some (cur.getD [] ++ [c])) acc

/-- Model of Python `shlex.split` (POSIX, comments off); `none` models
`ValueError` (unterminated quote / trailing escape). -/
def shlexSplit (s : String) : Option (List String) :=
  shlexGo s.data.length s.data ShlexMode.normal none []

/-! ### Sanitizer (`agent_core/sandbox.py`, `_sanitize_command`) -/

/-- Environment configuration read by `_sanitize_command`:
`MAX_COMMAND_LEN` (default 2000), `SANDBOX_STRICT_SANITIZE` (default
true), and `SANDBOX_CMD_ALLOWLIST` already split on commas by
`_split_allowlist` (default empty). -/
structure SanitizerCfg where
  maxLen : Nat
  strict : Bool
  allowlist : List String
deriving DecidableEq, Repr

/-- The default environment configuration of the sanitizer. -/
def defaultCfg : SanitizerCfg := { maxLen := 2000, strict := true, allowlist := [] }

/-- `any(ch in cmd for ch in ("\n", "\r", "\x00"))` at sandbox.py:42. -/
def hasNewlineOrNul (s : String) : Bool :=
  s.data.any fun c => c.toNat = 10 ∨ c.toNat = 13 ∨ c.toNat = 0

/-- The strict-mode control-character class of sandbox.py:48, i.e. the
regex character class 0x00-0x08, 0x0B, 0x0C, 0x0E-0x1F, 0x7F. -/
def hasControlChar (s : String) : Bool :=
  s.data.any fun c =>
    c.toNat ≤ 8 ∨ c.toNat = 11 ∨ c.toNat = 12 ∨
      (14 ≤ c.toNat ∧ c.toNat ≤ 31) ∨ c.toNat = 127

/-- Embedding of `sandbox._sanitize_command` (sandbox.py:25-61).  The
`isinstance` guard is vacuous for a `String` argument.  `shlex.split`
failure and the (unreachable, since the command is non-blank) empty
token list are both caught by the same `except` and yield the parse
failure message, exactly as in the source. -/
def _sanitize_command (cfg : SanitizerCfg) (cmd : String) : Bool × String :=
  if (trimChars cmd.data).isEmpty then (false, "Empty command")
  else if cmd.data.length > cfg.maxLen then
    (false, "Command exceeds maximum length of " ++ toString cfg.maxLen ++ " characters")
  else if hasNewlineOrNul cmd then
    (false, "Command contains disallowed newline or NUL characters")
  else if cfg.strict ∧ hasControlChar cmd then
    (false, "Command contains disallowed control characters")
  else if cfg.allowlist ≠ [] then
    match shlexSplit cmd with
    | none => (false, "Unable to parse command for allowlist check")
    | some [] => (false, "Unable to parse command for allowlist check")
    | some (first :: _) =>
      if first ∈ cfg.allowlist then (true, "")
      else (false, "Command " ++ sq ++ first ++ sq ++ " not permitted by allowlist")
  else (true, "")

/-! ### Sandbox executor (`agent_core/sandbox.py`) -/

/-- The result dict `{stdout, stderr, exit_code}` returned by the
sandbox functions. -/
structure ExecResult where
  stdout : String
  stderr : String
  exit_code : Int
deriving DecidableEq, Repr

/-- Runtime environment consulted by `_execute_command_unmanaged_async`:
`SANDBOX_FORCE_LOCAL`, the result of `shutil.which("sudo")`, and — to
state claims about it — the `SANDBOX_USER` environment value that
`main.py` reads (default `"sandboxuser"`).  Note that `sandbox.py`
itself never consults `SANDBOX_USER`: line 71 hardcodes
`user = "root"`, which is the subject of claim C1. -/
structure SandboxEnv where
  forceLocal : Bool
  sudoPath : Option String
  sandboxUserEnv : String
deriving DecidableEq, Repr

/-- What `_execute_command_unmanaged_async` decides to do after the
sanitizer gate, before any child behaviour is observed. -/
inductive ExecAction where
  | rejected (stderr : String)
  | spawnSudo (argv : List String)
  | runLocalShell (command : String)
deriving DecidableEq, Repr

/-- The control flow of `sandbox._execute_command_unmanaged_async`
(sandbox.py:63-116) up to the spawn decision: sanitize, then prefer the
sudo wrapper unless `SANDBOX_FORCE_LOCAL` is set or `sudo` is missing.
The spawned argv mirrors lines 95-104 with the hardcoded
`user = "root"` of line 71. -/
def executionAction (env : SandboxEnv) (cfg : SanitizerCfg) (command : String) : ExecAction :=
  match _sanitize_command cfg command with
  | (false, err) => ExecAction.rejected ("Rejected: " ++ err)
  | (true, _) =>
    if env.forceLocal = false then
      match env.sudoPath with
      | some p => ExecAction.spawnSudo [p, "-u", "root", "bash", "-lc", command]
      | none => ExecAction.runLocalShell command
    else ExecAction.runLocalShell command

/-- Child-process behaviour oracles.  `sudoRun argv = none` models an
exception from `create_subprocess_exec` (the source then falls back to
local execution); `localRun = .error e` models an exception from
`create_subprocess_shell` (the source returns exit code -1 with
`str(e)` as stderr). -/
structure ChildOracle where
  sudoRun : List String → Option ExecResult
  localRun : String → Except String ExecResult

/-- `_run_local_async` (sandbox.py:74-88). -/
def _run_local (oracle : ChildOracle) (command : String) : ExecResult :=
  match oracle.localRun command with
  | Except.ok r => r
  | Except.error e => { stdout := "", stderr := e, exit_code := -1 }

/-- `sandbox._execute_command_unmanaged_async` composed with the child
oracles: rejection returns exit code -2 without spawning; a sudo spawn
failure falls back to `_run_local_async`. -/
def _execute_command_unmanaged (env : SandboxEnv) (cfg : SanitizerCfg)
    (oracle : ChildOracle) (command : String) : ExecResult :=
  match executionAction env cfg command with
  | ExecAction.rejected msg => { stdout := "", stderr := msg, exit_code := -2 }
  | ExecAction.spawnSudo argv =>
    match oracle.sudoRun argv with
    | some r => r
    | none => _run_local oracle command
  | ExecAction.runLocalShell c => _run_local oracle c

/-- `os.path.join(os.getcwd(), ".venv_demo", "bin", "activate")` for a
working directory `cwd` (sandbox.py:130). -/
def venvActivatePath (cwd : String) : String := cwd ++ "/.venv_demo/bin/activate"

/-- The wrapped command built by `execute_command_async`
(sandbox.py:131): `source '<venv>' && <command>`. -/
def wrappedCommand (cwd command : String) : String :=
  "source " ++ sq ++ venvActivatePath cwd ++ sq ++ " && " ++ command

/-- `sandbox.execute_command_async` / `execute_command`
(sandbox.py:126-139): prepend the virtualenv activation and delegate to
the unmanaged executor (which sanitizes the wrapped string). -/
def execute_command (env : SandboxEnv) (cfg : SanitizerCfg)
    (oracle : ChildOracle) (cwd command : String) : ExecResult :=
  _execute_command_unmanaged env cfg oracle (wrappedCommand cwd command)

/-! ### Upstream retry helper (`agent_core/api_client.py`, `_retry`) -/

/-- An exception raised by an upstream call: `openai.APIError` with its
optional `status_code` attribute, or any other exception. -/
inductive UpstreamErr where
  | api (status : Option Int) (msg : String)
  | other (msg : String)
deriving DecidableEq, Repr

/-- `status in {429, 500, 502, 503, 504}` (api_client.py:70-71); a
missing `status_code` (`None`) is not in the set. -/
def transientStatus : Option Int → Bool
  | some n => n = 429 ∨ n = 500 ∨ n = 502 ∨ n = 503 ∨ n = 504
  | none => false

/-- Does `_retry` treat this exception as retriable?  Transient
`APIError`s are (api_client.py:66-76); any non-`APIError` exception is
as well ("Unknown exception; treat as transient", api_client.py:79-84);
`APIError`s with any other status re-raise immediately. -/
def retriableErr : UpstreamErr → Bool
  | UpstreamErr.api s _ => transientStatus s
  | UpstreamErr.other _ => true

/-- The loop of `api_client._retry` from attempt `i`; `fn i` is the
outcome of attempt `i`.  Returns the final outcome together with the
list of back-off sleeps performed (`backoff * 2^i` seconds before
attempt `i+1`).  The trailing `if last: raise last` of the source is
unreachable (every loop iteration returns or raises). -/
def retryFrom (fn : Nat → Except UpstreamErr α) (backoff : ℚ) (retries : Nat) :
    Nat → Except UpstreamErr α × List ℚ
  | i =>
    match fn i with
    | Except.ok a => (Except.ok a, [])
    | Except.error e =>
      if retriableErr e then
        if h : retries ≤ i then (Except.error e, [])
        else
          let rest := retryFrom fn backoff retries (i + 1)
          (rest.1, backoff * 2 ^ i :: rest.2)
      else (Except.error e, [])
termination_by i => retries + 1 - i
decreasing_by omega

/-- `api_client._retry(fn, retries=2, backoff=0.75)` with explicit
parameters. -/
def _retry (fn : Nat → Except UpstreamErr α) (retries : Nat) (backoff : ℚ) :
    Except UpstreamErr α × List ℚ :=
  retryFrom fn backoff retries 0

/-! ### Planner / translator clients (`agent_core/api_client.py`) -/

/-- Embedding of the `TERMINUS_FAKE` branch of `api_client.run_executor`
(api_client.py:388-401): a deterministic substring → command mapping. -/
def run_executor_fake (sub_task : String) : String :=
  let task := pyLower (pyStrip sub_task)
  if pyContains task "print hello" then "echo hello"
  else if pyContains task "print completion" ∨ pyContains task "print done" then "echo done"
  else if pyContains task "cause failure" then "bash -lc " ++ sq ++ "exit 1" ++ sq
  else if pyContains task "remediate" then "echo remediate"
  else "echo noop"

/-- Embedding of the control structure of `api_client.run_planner`
(api_client.py:222-294).  Unlike `run_executor`, the function has NO
`TERMINUS_FAKE` branch: regardless of the fake-mode flag it performs the
upstream Responses call (`_retry(_call)`), whose outcome is the
`upstream` argument; an upstream exception propagates.  Parsing of a
successful response text (strict-JSON, bullet fallback, single-step
fallback; lines 277-294) is abstracted as `parse`, which no claim below
depends on. -/
def run_planner_model (fake : Bool) (upstream : Except String String)
    (parse : String → List String) : Except String (List String) :=
  match upstream with
  | Except.error e => Except.error e
  | Except.ok text => Except.ok (parse text)

/-! ### Workflow engine (`agent_core/main.py`) -/

/-- The outbound event envelopes of §6 as emitted by `main.execute_goal`
and `main._workflow` (payload fields only; each constructor is one
`emit_json` call site). -/
inductive Ev where
  | plan_generated (plan : List String)
  | step_executing (step : String) (command : String)
  | step_result (stdout : String) (stderr : String) (exit_code : Int)
  | error_detected (error : String) (failed_step : String)
  | re_planning
  | workflow_complete (status : String)
deriving DecidableEq, Repr

/-- How the workflow coroutine ends: a normal return, an exception
propagating out of `_workflow` (uncaught: its `try` handles only
`asyncio.CancelledError`), or fuel exhaustion of the model (the source
loop has no re-plan bound). -/
inductive Outcome where
  | returned
  | raised (msg : String)
  | outOfFuel
deriving DecidableEq, Repr

/-- `main._cat` (main.py:184-186). -/
def _cat (msg category : String) : String := "[" ++ category ++ "] " ++ msg

/-- One history record (main.py:517-526).  The source also stores a
wall-clock `sandbox_latency` float, which a deterministic embedding
omits; no theorem below depends on a serialized non-empty history. -/
structure StepRec where
  step : String
  command : String
  stdout : String
  stderr : String
  exit_code : Int
deriving DecidableEq, Repr

/-- External dependencies of one `_workflow` run: the
`api_client.run_planner` call (via `asyncio.to_thread`; an exception
becomes `.error`), the `api_client.run_executor` call, the
`sandbox.execute_command` call (`.error` models an exception raised out
of it), and `json.dumps` of the history (abstracted because the source
records include a wall-clock float; it equals `"[]"` on the empty
history used by every theorem below). -/
structure WorkflowDeps where
  planner : String → Except String (List String)
  executor : String → Except String String
  sandboxCall : String → Except String ExecResult
  historyJson : List StepRec → String

/-- `main._normalize_command_for_os` on a non-Windows host
(main.py:120-148): map PowerShell-style directory listings to
`ls -la`, otherwise keep the command. -/
def _normalize_command_for_os (command : String) : String :=
  let lower := pyLower (pyStrip command)
  if pyStartsWith lower "get-childitem" ∨ pyStartsWith lower "gci" ∨ pyStartsWith lower "dir"
  then "ls -la" else command

/-- The forbidden-prefix tuple of main.py:421-427, verbatim — note the
capital `T` in the first entry. -/
def forbiddenStarts : List String :=
  ["open -a Terminal", "cmd ", "cmd.exe", "start ", "powershell"]

/-- The guard of main.py:428:
`any(command.lower().startswith(pfx) for pfx in forbidden_prefixes)`.
The lower-cased command is compared against the prefixes as written. -/
def isForbiddenCommand (command : String) : Bool :=
  forbiddenStarts.any fun p => pyStartsWith (pyLower command) p

/-- The re-plan prompt after a translator failure (main.py:458-461). -/
def execErrRevisedGoal (goal step err historyJson : String) : String :=
  "Revise plan after failure.\nOriginal goal: " ++ goal ++ "\nFailed step: " ++ step ++
    "\nError: " ++ err ++ "\nHistory: " ++ pyTake historyJson 4000

/-- The re-plan prompt after a non-zero exit (main.py:553-558). -/
def cmdFailRevisedGoal (goal step command stderr historyJson : String) : String :=
  "Re-plan after command failure.\nOriginal goal: " ++ goal ++ "\nFailed step: " ++ step ++
    "\nCommand: " ++ command ++ "\nstderr: " ++ pyTake stderr 2000 ++
    "\nHistory: " ++ pyTake historyJson 4000

/-- The step loop of `main._workflow` (main.py:402-597).  Per iteration:
translate the step via `run_executor` (normalising the command and
raising on a forbidden prefix, both inside the `try`); on a translator
exception emit `error_detected [executor]` + `re_planning` and re-plan
(planner failure emits `error_detected [planner]` and returns); then
emit `step_executing`, call `sandbox.execute_command` (an exception
from it propagates — the enclosing `try` catches only cancellation),
emit `step_result`, append to the history, and either advance or re-plan
on a non-zero exit.  When the index reaches the plan length, emit
`workflow_complete{success}`.  Fuel bounds the unbounded re-plan loop of
the source. -/
def workflowLoop (deps : WorkflowDeps) (goal : String) :
    Nat → List String → Nat → List StepRec → List Ev × Outcome
  | 0, _, _, _ => ([], Outcome.outOfFuel)
  | Nat.succ fuel, plan, idx, hist =>
    if idx < plan.length then
      let step := plan.getD idx ""
      match deps.executor step with
      | Except.error e =>
        let evs := [Ev.error_detected (_cat ("Executor error: " ++ e) "executor") step,
                    Ev.re_planning]
        match deps.planner (execErrRevisedGoal goal step e (deps.historyJson hist)) with
        | Except.ok newPlan =>
          let rest := workflowLoop deps goal fuel newPlan 0 hist
          (evs ++ Ev.plan_generated newPlan :: rest.1, rest.2)
        | Except.error e2 =>
          (evs ++ [Ev.error_detected (_cat ("Re-planning failed: " ++ e2) "planner") step],
           Outcome.returned)
      | Except.ok command =>
        let norm := _normalize_command_for_os command
        if isForbiddenCommand command then
          -- `raise RuntimeError(f"forbidden command: {command}")`, caught by the
          -- same `except Exception` as a translator failure (main.py:428-429, 439).
          let e := "forbidden command: " ++ command
          let evs := [Ev.error_detected (_cat ("Executor error: " ++ e) "executor") step,
                      Ev.re_planning]
          match deps.planner (execErrRevisedGoal goal step e (deps.historyJson hist)) with
          | Except.ok newPlan =>
            let rest := workflowLoop deps goal fuel newPlan 0 hist
            (evs ++ Ev.plan_generated newPlan :: rest.1, rest.2)
          | Except.error e2 =>
            (evs ++ [Ev.error_detected (_cat ("Re-planning failed: " ++ e2) "planner") step],
             Outcome.returned)
        else
          match deps.sandboxCall norm with
          | Except.error e => ([Ev.step_executing step norm], Outcome.raised e)
          | Except.ok res =>
            let record : StepRec :=
              { step := step, command := norm, stdout := res.stdout,
                stderr := res.stderr, exit_code := res.exit_code }
            let hist2 := hist ++ [record]
            if res.exit_code ≠ 0 then
              let stderrCut := pyTake res.stderr 2000
              let errText := if stderrCut = "" then "unknown error" else stderrCut
              let evs := [Ev.step_executing step norm,
                          Ev.step_result res.stdout res.stderr res.exit_code,
                          Ev.error_detected (_cat errText "sandbox") step,
                          Ev.re_planning]
              match deps.planner
                  (cmdFailRevisedGoal goal step command res.stderr (deps.historyJson hist2)) with
              | Except.ok newPlan =>
                let rest := workflowLoop deps goal fuel newPlan 0 hist2
                (evs ++ Ev.plan_generated newPlan :: rest.1, rest.2)
              | Except.error e2 =>
                (evs ++ [Ev.error_detected (_cat ("Re-planning failed: " ++ e2) "planner") step],
                 Outcome.returned)
            else
              let rest := workflowLoop deps goal fuel plan (idx + 1) hist2
              (Ev.step_executing step norm ::
                 Ev.step_result res.stdout res.stderr res.exit_code :: rest.1, rest.2)
    else ([Ev.workflow_complete "success"], Outcome.returned)

/-- `main._workflow` (main.py:367-616): initial planner call (failure
emits `error_detected [planner]` with `failed_step = "planning"` and
returns), then `plan_generated` and the step loop. -/
def _workflow (deps : WorkflowDeps) (goal : String) (fuel : Nat) : List Ev × Outcome :=
  match deps.planner goal with
  | Except.error e =>
    ([Ev.error_detected (_cat ("Planner error: " ++ e) "planner") "planning"], Outcome.returned)
  | Except.ok plan =>
    let rest := workflowLoop deps goal fuel plan 0 []
    (Ev.plan_generated plan :: rest.1, rest.2)

/-- Modelled from the Python runtime semantics of the sandbox call site:
`main._workflow` is a coroutine running on the server's event loop and
calls `sandbox.execute_command` synchronously (main.py:503), which
invokes `asyncio.run` (sandbox.py:139); `asyncio.run` raises
`RuntimeError` whenever an event loop is already running in the current
thread, so every such call raises before reaching the sandbox logic. -/
def sandboxCallFromWorkflow : String → Except String ExecResult :=
  fun _ => Except.error "asyncio.run() cannot be called from a running event loop"

/-- Is an event an `error_detected`? -/
def isErrorDetected : Ev → Bool
  | Ev.error_detected _ _ => true
  | _ => false

/-- Is an event a `plan_generated`? -/
def isPlanGenerated : Ev → Bool
  | Ev.plan_generated _ => true
  | _ => false

/-- The `failed_step` field of an `error_detected` event (`""`
otherwise). -/
def evFailedStep : Ev → String
  | Ev.error_detected _ f => f
  | _ => ""

/-- The `error` field of an `error_detected` event (`""` otherwise). -/
def evError : Ev → String
  | Ev.error_detected e _ => e
  | _ => ""

/-! ### Admission (`main.execute_goal`, main.py:301-325)

The handler cancels any still-running workflow of the same client, then
enforces the per-client rate limit; the timestamp is written only on
acceptance.  Validation and the workflow spawn follow acceptance and are
modelled by `_workflow` above.  Wall-clock instants are modelled as
rationals. -/

/-- Per-client admission state: `_last_exec_ts.get(sid)` (absent reads
as `0.0`) and whether a previous workflow task exists and is not done. -/
structure AdmissionState where
  lastTs : Option ℚ
  prevRunning : Bool

/-- What the admission stage did: whether the previous workflow was
cancelled, the events emitted, whether the request was accepted, and the
timestamp entry afterwards. -/
structure AdmissionResult where
  cancelledPrev : Bool
  events : List Ev
  accepted : Bool
  lastTsAfter : Option ℚ

/-- Model of Python `f"{q:.1f}"` for the non-negative wait times used
here (round-half-up; the half-even tie behaviour of binary floats is not
modelled and no theorem depends on the printed digits). -/
def fmt1 (q : ℚ) : String :=
  let n : Int := Rat.floor (q * 10 + 1 / 2)
  toString (n / 10) ++ "." ++ toString (n % 10)

/-- `main.execute_goal`, lines 303-325: unconditionally cancel a running
previous workflow (lines 306-309), then reject with a `rate_limit`
error when `now - last < MIN_EXECUTE_GOAL_INTERVAL_SEC`, leaving the
timestamp untouched; otherwise accept and record `now` (line 325). -/
def execute_goal_admission (minInterval : ℚ) (st : AdmissionState) (now : ℚ) :
    AdmissionResult :=
  let cancelled := st.prevRunning
  let last := st.lastTs.getD 0
  if now - last < minInterval then
    { cancelledPrev := cancelled
      events := [Ev.error_detected
        (_cat ("Rate limit: wait " ++ fmt1 (minInterval - (now - last)) ++ "s") "rate_limit")
        "rate_limit"]
      accepted := false
      lastTsAfter := st.lastTs }
  else
    { cancelledPrev := cancelled, events := [], accepted := true, lastTsAfter := some now }

/-! ### Concrete environments and oracles used by the theorems -/

/-- Sanitizer configuration with allowlist `echo` (the spec's allowlist
scenario). -/
def echoCfg : SanitizerCfg := { maxLen := 2000, strict := true, allowlist := ["echo"] }

/-- A sanitizer configuration whose length cap sits between the length
of `echo ok` (7) and the length of its venv-wrapped form (48). -/
def shortCfg : SanitizerCfg := { maxLen := 40, strict := true, allowlist := [] }

/-- A hardened host: `sudo` present, local fallback not forced,
`SANDBOX_USER` left at its default. -/
def demoEnv : SandboxEnv :=
  { forceLocal := false, sudoPath := some "/usr/bin/sudo", sandboxUserEnv := "sandboxuser" }

/-- Child oracles for runs that are rejected before any spawn: both
spawn paths fail if ever consulted. -/
def failOracle : ChildOracle :=
  { sudoRun := fun _ => none, localRun := fun _ => Except.error "spawn failed" }

/-- The planner-call outcome in the offline scenario: `run_planner`
always performs the upstream Responses call, and with no valid
`OPENAI_API_KEY` that call raises a (non-transient) authentication
error, which `_retry` re-raises immediately. -/
def plannerWithoutCredentials : String → Except String (List String) :=
  fun _ => Except.error "AuthenticationError: invalid API key"

/-- `_workflow` dependencies in offline (fake) mode with no upstream
credentials: the translator is the deterministic fake mapping, the
planner call fails, the sandbox call site raises (see
`sandboxCallFromWorkflow`). -/
def offlineDeps : WorkflowDeps :=
  { planner := plannerWithoutCredentials
    executor := fun t => Except.ok (run_executor_fake t)
    sandboxCall := sandboxCallFromWorkflow
    historyJson := fun _ => "[]" }

/-- The event sequence asserted by the spec's happy-path scenario
(§8, scenario 1), restated from the spec's words for comparison with
the embedded code's behaviour. -/
def specHappyPathTrace : List Ev :=
  [Ev.plan_generated ["print hello"],
   Ev.step_executing "print hello" "echo hello",
   Ev.step_result "hello\n" "" 0,
   Ev.workflow_complete "success"]

/-- Dependencies for a run whose planner succeeds with a one-step plan
and whose translator succeeds, isolating the sandbox call site. -/
def depsStepExecution : WorkflowDeps :=
  { planner := fun g => if g = "print hello" then Except.ok ["print hello"]
      else Except.error "unreachable"
    executor := fun t => Except.ok (run_executor_fake t)
    sandboxCall := sandboxCallFromWorkflow
    historyJson := fun _ => "[]" }

/-- Dependencies where the plan's only step itself begins with the
direct-command token `echo`, and the translator answers something
observably different from the step. -/
def depsDirectStep : WorkflowDeps :=
  { planner := fun g => if g = "run the greeting" then Except.ok ["echo hello"]
      else Except.error "x"
    executor := fun s => if s = "echo hello" then Except.ok "echo translated"
      else Except.error "x"
    sandboxCall := sandboxCallFromWorkflow
    historyJson := fun _ => "[]" }

/-- Dependencies where the translator produces a macOS GUI-terminal
command, the very thing the forbidden-prefix guard is meant to stop. -/
def depsOpenTerminal : WorkflowDeps :=
  { planner := fun _ => Except.ok ["open the macOS terminal"]
    executor := fun _ => Except.ok "open -a Terminal Notes"
    sandboxCall := sandboxCallFromWorkflow
    historyJson := fun _ => "[]" }

/-- An upstream call whose first attempt raises a non-`APIError`
exception (no HTTP status at all) and whose second attempt succeeds. -/
def retryNonApiFn : Nat → Except UpstreamErr Nat :=
  fun i => if i = 0 then Except.error (UpstreamErr.other "connection reset") else Except.ok 42

/-- The `[rate_limit]`-categorised error string always starts with its
bracketed category token. -/
theorem rateLimitCatStarts (m : String) :
    pyStartsWith (_cat m "rate_limit") "[rate_limit]" = true := rfl

/-! ### Claim theorems -/

/-- C1: the sanitizer-accepted command is spawned as
`[sudo, -u, <user>, bash, -lc, <cmd>]`, but `<user>` is the hardcoded
string `"root"` (sandbox.py:71): the spawn decision is independent of
the configured `SANDBOX_USER` value, and at the default configuration
the spawned identity `"root"` differs from the configured default
`"sandboxuser"`. -/
theorem sandbox_user_hardcoded_root :
    (∀ (env : SandboxEnv) (cfg : SanitizerCfg) (cmd u : String),
      executionAction
          { forceLocal := env.forceLocal, sudoPath := env.sudoPath, sandboxUserEnv := u }
          cfg cmd
        = executionAction env cfg cmd)
    ∧ executionAction demoEnv defaultCfg "echo hi"
        = ExecAction.spawnSudo ["/usr/bin/sudo", "-u", "root", "bash", "-lc", "echo hi"]
    ∧ "root" ≠ "sandboxuser" :=
  ⟨fun _ _ _ _ => rfl, by decide, by decide⟩

/-- C2: in offline (fake) mode with no upstream credentials, the claimed
happy-path event sequence does not occur.  `run_planner` — unlike
`run_executor` — has no fake branch (its outcome is independent of the
fake flag and is the upstream call's outcome), so the workflow emits a
single `error_detected [planner]` and terminates: no `plan_generated`,
no `step_executing`, no `step_result`, no `workflow_complete`, even
though the fake translator does map "print hello" to `echo hello`. -/
theorem offline_mode_planner_not_offline :
    (∀ (fake1 fake2 : Bool) (upstream : Except String String) (parse : String → List String),
      run_planner_model fake1 upstream parse = run_planner_model fake2 upstream parse)
    ∧ run_executor_fake "print hello" = "echo hello"
    ∧ _workflow offlineDeps "print hello" 8
        = ([Ev.error_detected "[planner] Planner error: AuthenticationError: invalid API key"
              "planning"], Outcome.returned)
    ∧ (_workflow offlineDeps "print hello" 8).1.any isPlanGenerated = false
    ∧ _workflow offlineDeps "print hello" 8 ≠ (specHappyPathTrace, Outcome.returned) :=
  ⟨fun _ _ _ _ => rfl, by decide, by decide, by decide, by decide⟩

/-- C3: an exception does escape the workflow boundary with no
`error_detected`: with a successful plan and translation, the step
loop's synchronous `sandbox.execute_command` call raises (`asyncio.run`
inside the running event loop), `_workflow`'s `try` catches only
`asyncio.CancelledError`, and the run ends `raised` — after
`plan_generated` and `step_executing`, with no `error_detected` event at
all. -/
theorem workflow_step_execution_raises :
    _workflow depsStepExecution "print hello" 8
      = ([Ev.plan_generated ["print hello"], Ev.step_executing "print hello" "echo hello"],
         Outcome.raised "asyncio.run() cannot be called from a running event loop")
    ∧ (_workflow depsStepExecution "print hello" 8).1.any isErrorDetected = false
    ∧ (_workflow depsStepExecution "print hello" 8).2 ≠ Outcome.returned :=
  ⟨by decide, by decide, by decide⟩

/-- C4 counterexample: a second `execute_goal` arriving 1 s after an
accepted one (minimum interval 2 s) while the first workflow is still
running is rejected with a `rate_limit` error and the timestamp is kept
— but `cancelledPrev = true`: the handler cancelled the first workflow
(main.py:306-309) before the rate-limit check, refuting "the first
request's workflow proceeds normally (it is not cancelled)". -/
theorem rate_limit_cancels_prev_counterexample :
    (execute_goal_admission 2 { lastTs := some 10, prevRunning := true } 11).accepted = false
    ∧ (execute_goal_admission 2 { lastTs := some 10, prevRunning := true } 11).events.map
        evFailedStep = ["rate_limit"]
    ∧ ((execute_goal_admission 2 { lastTs := some 10, prevRunning := true } 11).events.map
        fun e => pyStartsWith (evError e) "[rate_limit]") = [true]
    ∧ (execute_goal_admission 2 { lastTs := some 10, prevRunning := true } 11).lastTsAfter
        = some 10
    ∧ (execute_goal_admission 2 { lastTs := some 10, prevRunning := true } 11).cancelledPrev
        = true := by
  norm_num [execute_goal_admission, evFailedStep, evError, rateLimitCatStarts]

/-- C4 amended: a second `execute_goal` within the minimum interval is
rejected with an `error_detected` of category `rate_limit` and
`failed_step "rate_limit"`, and the last-accepted timestamp is not
updated; however, the handler has already cancelled any still-running
previous workflow for that client before the rate-limit check, so the
first request's workflow does not proceed (it is cancelled whenever it
is still running). -/
theorem rate_limit_rejection_amended (minInterval now : ℚ) (st : AdmissionState)
    (h : now - st.lastTs.getD 0 < minInterval) :
    (execute_goal_admission minInterval st now).accepted = false
    ∧ (execute_goal_admission minInterval st now).lastTsAfter = st.lastTs
    ∧ (execute_goal_admission minInterval st now).events.map evFailedStep = ["rate_limit"]
    ∧ ((execute_goal_admission minInterval st now).events.map
        fun e => pyStartsWith (evError e) "[rate_limit]") = [true]
    ∧ (execute_goal_admission minInterval st now).cancelledPrev = st.prevRunning := by
  simp [execute_goal_admission, h, evFailedStep, evError, rateLimitCatStarts]

/-- C4 amended, witness at a concrete input: state with no prior
timestamp and a running previous workflow, request at time 0,
minimum interval 2. -/
theorem rate_limit_rejection_amended_witness :
    ((0 : ℚ) - (AdmissionState.mk none true).lastTs.getD 0 < 2)
    ∧ ((execute_goal_admission 2 (AdmissionState.mk none true) 0).accepted = false
      ∧ (execute_goal_admission 2 (AdmissionState.mk none true) 0).lastTsAfter = none
      ∧ (execute_goal_admission 2 (AdmissionState.mk none true) 0).events.map
          evFailedStep = ["rate_limit"]
      ∧ ((execute_goal_admission 2 (AdmissionState.mk none true) 0).events.map
          fun e => pyStartsWith (evError e) "[rate_limit]") = [true]
      ∧ (execute_goal_admission 2 (AdmissionState.mk none true) 0).cancelledPrev = true) :=
  ⟨by simp, rate_limit_rejection_amended 2 0 (AdmissionState.mk none true) (by simp)⟩

/-- C5 counterexample: the plan's step `echo hello` begins with the
direct-command token `echo`, yet the engine still calls the translator
and executes the translator's answer `echo translated`, not the step
verbatim: there is no direct-command bypass in `_workflow`
(main.py:406-438 always calls `api_client.run_executor`). -/
theorem direct_prefix_counterexample :
    pyStartsWith "echo hello" "echo" = true
    ∧ _workflow depsDirectStep "run the greeting" 8
        = ([Ev.plan_generated ["echo hello"], Ev.step_executing "echo hello" "echo translated"],
           Outcome.raised "asyncio.run() cannot be called from a running event loop")
    ∧ "echo translated" ≠ "echo hello" :=
  ⟨by decide, by decide, by decide⟩

/-- C5 amended: for every step of a plan — including steps beginning
with the listed direct-command tokens — the engine always calls the
translator and uses its (normalised) answer as the command; there is no
verbatim path. -/
theorem translator_always_called_amended
    (planner : String → Except String (List String))
    (executor : String → Except String String)
    (hj : List StepRec → String) (goal step c : String)
    (hplan : planner goal = Except.ok [step])
    (hexec : executor step = Except.ok c)
    (hforb : isForbiddenCommand c = false) :
    (_workflow
        { planner := planner, executor := executor,
          sandboxCall := sandboxCallFromWorkflow, historyJson := hj } goal 2).1
      = [Ev.plan_generated [step], Ev.step_executing step (_normalize_command_for_os c)] := by
  simp [_workflow, hplan, workflowLoop, hexec, hforb, sandboxCallFromWorkflow]

/-- C5 amended, witness: a one-step plan whose step is a plain
natural-language task; the emitted command is the translator's output. -/
theorem translator_always_called_amended_witness :
    ((fun (_ : String) => Except.ok (ε := String) ["greet the user"]) "greet"
        = Except.ok ["greet the user"])
    ∧ ((fun (_ : String) => Except.ok (ε := String) "echo hi") "greet the user"
        = Except.ok "echo hi")
    ∧ isForbiddenCommand "echo hi" = false
    ∧ (_workflow
        { planner := fun _ => Except.ok ["greet the user"],
          executor := fun _ => Except.ok "echo hi",
          sandboxCall := sandboxCallFromWorkflow, historyJson := fun _ => "[]" } "greet" 2).1
      = [Ev.plan_generated ["greet the user"],
         Ev.step_executing "greet the user" (_normalize_command_for_os "echo hi")] :=
  ⟨rfl, rfl, by decide,
    translator_always_called_amended (fun _ => Except.ok ["greet the user"])
      (fun _ => Except.ok "echo hi") (fun _ => "[]") "greet" "greet the user" "echo hi"
      rfl rfl (by decide)⟩

/-- C6: with allowlist `echo`, `execute_command "uname -a"` does return
exit code -2, but so does `execute_command "echo ok"` — refuting
"`echo ok` never returns -2".  The public entry point sanitizes the
venv-wrapped string, whose first shell token is `source`, so the
allowlist rejects every command routed through it even though the raw
`echo ok` passes the sanitizer. -/
theorem allowlist_echo_ok_rejected :
    (execute_command demoEnv echoCfg failOracle "/app" "uname -a").exit_code = -2
    ∧ (execute_command demoEnv echoCfg failOracle "/app" "echo ok").exit_code = -2
    ∧ _sanitize_command echoCfg "echo ok" = (true, "")
    ∧ (execute_command demoEnv echoCfg failOracle "/app" "echo ok").stderr
        = "Rejected: Command " ++ sq ++ "source" ++ sq ++ " not permitted by allowlist" :=
  ⟨by decide, by decide, by decide, by decide⟩

/-- C7: the forbidden-prefix guard compares the lower-cased command
against `"open -a Terminal"`, which contains an upper-case `T`, so no
command whatsoever matches that entry — `open -a Terminal …` is not
rejected in any capitalisation and flows on to `step_executing`
(the all-lower-case entries such as `powershell` do match
case-insensitively). -/
theorem forbidden_terminal_never_matches :
    isForbiddenCommand "open -a Terminal Notes" = false
    ∧ isForbiddenCommand "OPEN -A TERMINAL Notes" = false
    ∧ isForbiddenCommand "open -a terminal Notes" = false
    ∧ isForbiddenCommand "powershell ls" = true
    ∧ isForbiddenCommand "PowerShell ls" = true
    ∧ _workflow depsOpenTerminal "open a terminal" 8
        = ([Ev.plan_generated ["open the macOS terminal"],
            Ev.step_executing "open the macOS terminal" "open -a Terminal Notes"],
           Outcome.raised "asyncio.run() cannot be called from a running event loop")
    ∧ (_workflow depsOpenTerminal "open a terminal" 8).1.any isErrorDetected = false :=
  ⟨by decide, by decide, by decide, by decide, by decide, by decide, by decide⟩

/-- C8 counterexample: a first attempt failing with a non-`APIError`
exception (no HTTP status in {429, 500, 502, 503, 504}) is retried
after a 0.75 s back-off and the call then succeeds — refuting "every
other error propagates immediately without any retry"
(api_client.py:79-84 retries unknown exceptions as transient). -/
theorem retry_unknown_error_counterexample :
    retryNonApiFn 0 = Except.error (UpstreamErr.other "connection reset")
    ∧ _retry retryNonApiFn 2 (3 / 4) = (Except.ok 42, [3 / 4]) :=
  ⟨rfl, by rw [_retry, retryFrom, retryFrom]; norm_num [retryNonApiFn, retriableErr]⟩

/-- C8 amended: the retry helper retries (sleeping `0.75 * 2^i` before
attempt `i+1`, for at most 2 retries) both on `APIError`s with HTTP
status in {429, 500, 502, 503, 504} and on any non-`APIError`
exception, which it deliberately treats as transient; only `APIError`s
with any other (or missing) status propagate immediately without
retry. -/
theorem retry_policy_amended :
    (∀ (fn : Nat → Except UpstreamErr Nat) (s : Option Int) (m : String),
      transientStatus s = false → fn 0 = Except.error (UpstreamErr.api s m) →
      _retry fn 2 (3 / 4) = (Except.error (UpstreamErr.api s m), []))
    ∧ (∀ (fn : Nat → Except UpstreamErr Nat) (e : UpstreamErr) (a : Nat),
      retriableErr e = true → fn 0 = Except.error e → fn 1 = Except.ok a →
      _retry fn 2 (3 / 4) = (Except.ok a, [3 / 4]))
    ∧ (∀ (fn : Nat → Except UpstreamErr Nat) (e0 e1 e2 : UpstreamErr),
      retriableErr e0 = true → retriableErr e1 = true → retriableErr e2 = true →
      fn 0 = Except.error e0 → fn 1 = Except.error e1 → fn 2 = Except.error e2 →
      _retry fn 2 (3 / 4) = (Except.error e2, [3 / 4, 3 / 2])) := by
  refine ⟨fun fn s m hs h0 => ?_, fun fn e a he h0 h1 => ?_, fun fn e0 e1 e2 he0 he1 he2 h0 h1 h2 => ?_⟩
  · rw [_retry, retryFrom]
    simp [h0, retriableErr, hs]
  · rw [_retry, retryFrom, retryFrom]
    simp [h0, h1, he]
  · rw [_retry, retryFrom, retryFrom, retryFrom]
    simp [h0, h1, h2, he0, he1, he2]
    norm_num

/-- C8 amended, witness: a non-transient 401 `APIError` propagates with
no retry; a transient-status failure then success retries once after
0.75 s; three retriable failures exhaust the 2 retries with sleeps
0.75 s and 1.5 s. -/
theorem retry_policy_amended_witness :
    (transientStatus (some 401) = false
      ∧ (fun (_ : Nat) => Except.error (α := Nat) (UpstreamErr.api (some 401) "auth")) 0
          = Except.error (UpstreamErr.api (some 401) "auth")
      ∧ _retry (fun _ => Except.error (UpstreamErr.api (some 401) "auth")) 2 (3 / 4)
          = (Except.error (α := Nat) (UpstreamErr.api (some 401) "auth"), []))
    ∧ (retriableErr (UpstreamErr.api (some 503) "unavailable") = true
      ∧ retryNonApiFn 1 = Except.ok 42
      ∧ _retry retryNonApiFn 2 (3 / 4) = (Except.ok 42, [3 / 4]))
    ∧ (retriableErr (UpstreamErr.other "boom") = true
      ∧ _retry (fun _ => Except.error (UpstreamErr.other "boom")) 2 (3 / 4)
          = (Except.error (α := Nat) (UpstreamErr.other "boom"), [3 / 4, 3 / 2])) :=
  ⟨⟨by decide, rfl,
      retry_policy_amended.1 (fun _ => Except.error (UpstreamErr.api (some 401) "auth"))
        (some 401) "auth" (by decide) rfl⟩,
   ⟨by decide, rfl,
      retry_policy_amended.2.1 retryNonApiFn (UpstreamErr.other "connection reset") 42
        (by decide) rfl rfl⟩,
   ⟨by decide,
      retry_policy_amended.2.2 (fun _ => Except.error (UpstreamErr.other "boom"))
        (UpstreamErr.other "boom") (UpstreamErr.other "boom") (UpstreamErr.other "boom")
        (by decide) (by decide) (by decide) rfl rfl rfl⟩⟩

/-- C9: the sanitizer is a total function (it is defined for every
input string), and any input containing `\n`, `\r` or NUL is rejected:
whichever earlier branch fires (blank, over-long), the decision is
already reject, and otherwise the dedicated newline/NUL check fires. -/
theorem sanitizer_rejects_newline_cr_nul (cfg : SanitizerCfg) (s : String)
    (h : hasNewlineOrNul s = true) : (_sanitize_command cfg s).1 = false := by
  unfold _sanitize_command
  split
  · rfl
  · split
    · rfl
    · simp [h]

/-- C9 witness: the spec's own sanitizer-reject scenario input. -/
theorem sanitizer_rejects_newline_cr_nul_witness :
    hasNewlineOrNul "echo hi\necho bye" = true
    ∧ (_sanitize_command defaultCfg "echo hi\necho bye").1 = false :=
  ⟨by decide, sanitizer_rejects_newline_cr_nul defaultCfg "echo hi\necho bye" (by decide)⟩

/-- C10: the public executor entry points do not sanitize or run the
caller's command itself: they delegate to the unmanaged executor on the
venv-wrapped string, whose first shell token is `source`, so the
allowlist first-token check never sees the caller's first token, and
the length check applies to the wrapped string — `echo ok` passes the
sanitizer both under allowlist `echo` and under a 40-character cap, yet
`execute_command` rejects it (exit -2) in both configurations. -/
theorem execute_command_wraps_before_sanitize :
    (∀ (env : SandboxEnv) (cfg : SanitizerCfg) (oracle : ChildOracle) (cwd c : String),
      execute_command env cfg oracle cwd c
        = _execute_command_unmanaged env cfg oracle (wrappedCommand cwd c))
    ∧ shlexSplit (wrappedCommand "/app" "echo ok")
        = some ["source", "/app/.venv_demo/bin/activate", "&&", "echo", "ok"]
    ∧ (_sanitize_command echoCfg "echo ok").1 = true
    ∧ (execute_command demoEnv echoCfg failOracle "/app" "echo ok").exit_code = -2
    ∧ (_sanitize_command shortCfg "echo ok").1 = true
    ∧ (execute_command demoEnv shortCfg failOracle "/app" "echo ok").exit_code = -2 :=
  ⟨fun _ _ _ _ _ => rfl, by decide, by decide, by decide, by decide, by decide⟩

end Terminus
